import Mathlib

/-!
Shallow embedding of the `spawn2` process-lifecycle library (src/src/index.ts).

The embedding models the library's pure decision logic faithfully:
JavaScript truthiness on `number | null` and `string | null` values is
made explicit, option merging follows the spread semantics of
`{ ...defaultOptions, ...(options || {}) }`, and the asynchronous parts
(`wait`, `communicate`'s `Promise.all`, the duplex bridge's handlers)
are modelled as explicit actions, events and settle times.
-/

namespace Spawn2

/-- JS truthiness of a `number | null` value: `null`, `0` (and `NaN`, not
representable here) are falsy; every other number is truthy. -/
def intTruthy : Option Int → Bool
  | none => false
  | some n => n != 0

/-- JS truthiness of a `string | null` value: `null` and `""` are falsy. -/
def strTruthy : Option String → Bool
  | none => false
  | some s => s != ""

/-- The `encoding` field of a caller-supplied options object: the key can be
absent, explicitly `null` ("return a Buffer"), or a codec name. -/
inductive EncodingOpt where
  | absent
  | null
  | enc (s : String)
deriving DecidableEq

/-- Caller-supplied options object passed to `spawn` (the fields of
`SpawnOptions` the core logic reads; `none`/`absent` means the key is not
in the object, so the spread in `spawn` does not override the default). -/
structure SpawnOptionsArg where
  checkExitCode : Option Bool := none
  checkSignalCode : Option Bool := none
  encoding : EncodingOpt := EncodingOpt.absent
  trimOutput : Option Bool := none
deriving DecidableEq

/-- The options snapshot stored on a `ChildProcess` after `spawn` resolved
the defaults (`mergedOptions` in the source). `encoding = none` is the
`null` marker meaning "raw bytes". -/
structure ChildProcessOptions where
  checkExitCode : Bool
  checkSignalCode : Bool
  encoding : Option String
  trimOutput : Bool
deriving DecidableEq

/-- Option resolution performed by `spawn` (index.ts lines 121-129):
`defaultOptions = { checkExitCode: true, checkSignalCode: true,
encoding: "utf-8", trimOutput: !!(options && options.encoding !== null) }`
overlaid by the caller's fields via object spread. An absent `options`
argument (`spawn(command)`) makes the `trimOutput` default `false`, since
`!!(undefined && ...)` is `false`. -/
def resolveOptions (options : Option SpawnOptionsArg) : ChildProcessOptions :=
  { checkExitCode := (options.bind (fun o => o.checkExitCode)).getD true
    checkSignalCode := (options.bind (fun o => o.checkSignalCode)).getD true
    encoding :=
      match options with
      | none => some "utf-8"
      | some o =>
        match o.encoding with
        | EncodingOpt.absent => some "utf-8"
        | EncodingOpt.null => none
        | EncodingOpt.enc s => some s
    trimOutput :=
      (options.bind (fun o => o.trimOutput)).getD
        (match options with
         | none => false
         | some o => o.encoding != EncodingOpt.null) }

/-- The `command` argument of `spawn`: a flat shell string or an argv array. -/
inductive Command where
  | str (s : String)
  | arr (a : List String)
deriving DecidableEq

/-- `Array.isArray(command) ? command : ["/bin/sh", "-c", command]`
(index.ts line 128). -/
def commandArray : Command → List String
  | Command.str s => ["/bin/sh", "-c", s]
  | Command.arr a => a

/-- The `ChildProcess` record returned by `spawn`. The three stream handles
are abstracted to presence flags (`stdin !== null` etc.); the raw node
handle `_cp` is the OS primitive and is not part of the model. -/
structure ChildProcess where
  command : List String
  options : ChildProcessOptions
  exitCode : Option Int
  signalCode : Option String
  pid : Nat
  isAlive : Bool
  hasStdin : Bool
  hasStdout : Bool
  hasStderr : Bool
deriving DecidableEq

/-- The one-shot terminal event delivered by the OS primitive, carrying
`(exitCode, signalCode)` (the arguments of node's `"exit"` listener). -/
structure ExitEvent where
  exitCode : Option Int
  signalCode : Option String
deriving DecidableEq

/-- The handle built by `spawn` (index.ts lines 131-142): status fields
null, `isAlive` true; pid and stream presence come from the OS spawn
primitive. -/
def spawn (command : Command) (options : Option SpawnOptionsArg)
    (pid : Nat) (hasStdin hasStdout hasStderr : Bool) : ChildProcess :=
  { command := commandArray command
    options := resolveOptions options
    exitCode := none
    signalCode := none
    pid := pid
    isAlive := true
    hasStdin := hasStdin
    hasStdout := hasStdout
    hasStderr := hasStderr }

/-- The single internal `"exit"` listener registered by `spawn`
(index.ts lines 143-147): flips `isAlive` and freezes the status fields
from the event's arguments. -/
def onExit (cp : ChildProcess) (ev : ExitEvent) : ChildProcess :=
  { cp with isAlive := false, exitCode := ev.exitCode, signalCode := ev.signalCode }

/-- `ChildProcessError`: carries the handle; the message is derived from
whichever of `exitCode`/`signalCode` is truthy (index.ts lines 37-44,
`childProcess.exitCode ? ... : childProcess.signalCode ? ... : ...`). -/
structure ChildProcessError where
  childProcess : ChildProcess
  message : String
deriving DecidableEq

/-- Constructor of `ChildProcessError` (index.ts lines 37-44). -/
def ChildProcessError.ofChildProcess (cp : ChildProcess) : ChildProcessError :=
  { childProcess := cp
    message :=
      if intTruthy cp.exitCode then
        "Command " ++ cp.command.headD "undefined" ++ " failed with exit code "
          ++ toString (cp.exitCode.getD 0)
      else if strTruthy cp.signalCode then
        "Command " ++ cp.command.headD "undefined" ++ " failed with signal "
          ++ (cp.signalCode.getD "")
      else
        "Command " ++ cp.command.headD "undefined" ++ " failed" }

/-- The policy condition of `wait`'s callback (index.ts line 160):
`(exitCode && cp.options.checkExitCode) || (signalCode && cp.options.checkSignalCode)`,
with JS truthiness on both status values. -/
def checkFails (opts : ChildProcessOptions)
    (exitCode : Option Int) (signalCode : Option String) : Bool :=
  (intTruthy exitCode && opts.checkExitCode) || (strTruthy signalCode && opts.checkSignalCode)

/-- The `{ exitCode, signalCode }` value `wait` resolves with. -/
structure WaitResult where
  exitCode : Option Int
  signalCode : Option String
deriving DecidableEq

/-- The callback `cb` inside `wait` (index.ts lines 159-165): rejects with
a `ChildProcessError` built from the handle when the policy condition
holds, otherwise resolves with its two arguments. -/
def waitCb (cp : ChildProcess) (exitCode : Option Int) (signalCode : Option String) :
    Except ChildProcessError WaitResult :=
  if checkFails cp.options exitCode signalCode then
    Except.error (ChildProcessError.ofChildProcess cp)
  else
    Except.ok { exitCode := exitCode, signalCode := signalCode }

instance {ε α : Type} [DecidableEq ε] [DecidableEq α] : DecidableEq (Except ε α) :=
  fun a b =>
    match a, b with
    | Except.ok x, Except.ok y =>
      if h : x = y then isTrue (by subst h; rfl) else isFalse (fun hh => by cases hh; exact h rfl)
    | Except.ok _, Except.error _ => isFalse (fun hh => by cases hh)
    | Except.error _, Except.ok _ => isFalse (fun hh => by cases hh)
    | Except.error x, Except.error y =>
      if h : x = y then isTrue (by subst h; rfl) else isFalse (fun hh => by cases hh; exact h rfl)

/-- What a call to `wait` does: either register `cb` as a one-shot `"exit"`
observer (live handle) or invoke `cb` at once on the frozen fields. -/
inductive WaitAction where
  | registerObserver
  | immediate (r : Except ChildProcessError WaitResult)
deriving DecidableEq

/-- The body of `wait` (index.ts lines 157-172): `if (cp.isAlive)
cp._cp.on("exit", cb); else cb(cp.exitCode, cp.signalCode)`. -/
def wait (cp : ChildProcess) : WaitAction :=
  if cp.isAlive then
    WaitAction.registerObserver
  else
    WaitAction.immediate (waitCb cp cp.exitCode cp.signalCode)

/-- Whether a call to `wait` on this handle rejects at once with a policy
error. -/
def waitFails (cp : ChildProcess) : Bool :=
  match wait cp with
  | WaitAction.immediate (Except.error _) => true
  | _ => false

/-- A `wait` call together with the handle state after the call: the body
of `wait` only reads `cp.isAlive`, `cp.exitCode`, `cp.signalCode` and
`cp.options` and performs no assignment to the handle, so the post-state
is the unchanged input. -/
def waitStep (cp : ChildProcess) : WaitAction × ChildProcess :=
  (wait cp, cp)

/-- Outcome of a `wait` call made while the process is still alive: the
registered observer fires on the terminal event with the event's own
`(exitCode, signalCode)` arguments; `spawn`'s internal listener (registered
first) has already updated the handle when `cb` runs, so the error value
is built from the updated handle. -/
def waitEarlyOutcome (cp : ChildProcess) (ev : ExitEvent) :
    Except ChildProcessError WaitResult :=
  waitCb (onExit cp ev) ev.exitCode ev.signalCode

/-- Outcome of a `wait` call made after the terminal event was observed:
`cb` is invoked on the frozen `exitCode`/`signalCode` fields. -/
def waitLateOutcome (cp : ChildProcess) (ev : ExitEvent) :
    Except ChildProcessError WaitResult :=
  waitCb (onExit cp ev) (onExit cp ev).exitCode (onExit cp ev).signalCode

/-! ## `communicate` (index.ts lines 193-218) -/

/-- Events observed by the child's stdin stream during `communicate`'s
stdin task. -/
inductive StdinEvent where
  | write (chunk : List Nat)
  | close
deriving DecidableEq

/-- `stream.pipeline(source, cp.stdin)`: writes every chunk of the source
in order, then ends the destination (pipeline's default `end: true`). -/
def pipelineEvents (src : List (List Nat)) : List StdinEvent :=
  src.map StdinEvent.write ++ [StdinEvent.close]

/-- The stdin side of `communicate` (index.ts lines 194-203), as the list
of events the child's stdin sees: line 194-196 `if ((stdin === undefined
|| stdin === null) && cp.stdin !== null) cp.stdin.end();`, then the
`stdinPromise` branch: immediate resolve when the argument is
absent/null or the handle has no stdin, otherwise `pipeline`. The stdin
argument is `none` for both JS `undefined` and `null`. -/
def stdinTaskEvents (stdinArg : Option (List (List Nat))) (hasStdin : Bool) :
    List StdinEvent :=
  (if stdinArg.isNone && hasStdin then [StdinEvent.close] else []) ++
  (match stdinArg, hasStdin with
   | some src, true => pipelineEvents src
   | _, _ => [])

/-- A `stdout`/`stderr`/`communicate` result value:
`Buffer | string | null`. -/
inductive OutputVal where
  | nullOut
  | bufferOut (bytes : List Nat)
  | stringOut (s : String)
deriving DecidableEq

/-- `maybeTrim` (index.ts lines 174-180): trims only when the value is a
string and the handle's resolved `trimOutput` option is set. -/
def maybeTrim (s : OutputVal) (cp : ChildProcess) : OutputVal :=
  match s with
  | OutputVal.stringOut str =>
    if cp.options.trimOutput then OutputVal.stringOut str.trim else s
  | _ => s

/-- A promise handed to `Promise.all`: the tick at which it settles and,
if it rejects, its reason. -/
structure PTask (ε : Type) where
  time : Nat
  err : Option ε
deriving DecidableEq

/-- How the aggregate promise of `Promise.all` settles. -/
inductive POutcome (ε : Type) where
  | fulfilled (time : Nat)
  | rejected (time : Nat) (reason : ε)
deriving DecidableEq

/-- Time and reason of the first rejection to settle, if any (ties broken
by list order, matching the event loop's registration order). -/
def earliestRejection {ε : Type} : List (PTask ε) → Option (Nat × ε)
  | [] => none
  | t :: ts =>
    match t.err, earliestRejection ts with
    | some e, some ue => if ue.1 < t.time then some ue else some (t.time, e)
    | some e, none => some (t.time, e)
    | none, r => r

/-- Settle time of an all-fulfilled `Promise.all`: the last fulfillment. -/
def maxSettleTime {ε : Type} : List (PTask ε) → Nat
  | [] => 0
  | t :: ts => max t.time (maxSettleTime ts)

/-- `Promise.all` settle semantics: fulfils when the last input fulfils;
rejects as soon as the first rejecting input settles (fail-fast), without
waiting for the remaining inputs. -/
def promiseAllSettle {ε : Type} (tasks : List (PTask ε)) : POutcome ε :=
  match earliestRejection tasks with
  | some ue => POutcome.rejected ue.1 ue.2
  | none => POutcome.fulfilled (maxSettleTime tasks)

/-- Is the aggregate outcome a rejection? -/
def POutcome.isRejected {ε : Type} : POutcome ε → Bool
  | POutcome.rejected _ _ => true
  | POutcome.fulfilled _ => false

/-- Tick at which the aggregate outcome settles. -/
def POutcome.settleTime {ε : Type} : POutcome ε → Nat
  | POutcome.rejected t _ => t
  | POutcome.fulfilled t => t

/-- The `wait(cp)` member of `communicate`'s `Promise.all`, settling at
tick `t` with the policy outcome of the terminal event. -/
def waitTaskOf (cp : ChildProcess) (ev : ExitEvent) (t : Nat) :
    PTask ChildProcessError :=
  { time := t
    err :=
      match waitEarlyOutcome cp ev with
      | Except.ok _ => none
      | Except.error e => some e }

/-- The settle behaviour of `await Promise.all([stdinPromise, wait(cp),
stdoutPromise, stderrPromise])` (index.ts line 215), with the stdin
delivery and the two drains settling at the given ticks (and, in this
model, fulfilling: stream errors are out of scope of the timing claims). -/
def communicateSettle (cp : ChildProcess) (ev : ExitEvent)
    (tStdin tWait tOut tErr : Nat) : POutcome ChildProcessError :=
  promiseAllSettle
    [{ time := tStdin, err := none }, waitTaskOf cp ev tWait,
     { time := tOut, err := none }, { time := tErr, err := none }]

/-! ## `execute` (index.ts lines 250-257) -/

/-- The `stdin` field of `ExecuteOptions` as the stdio derivation sees it:
absent, explicitly `null`, or some provided source. -/
inductive StdinOpt where
  | undef
  | null
  | source
deriving DecidableEq

/-- A `stdout`/`stderr` field of `ExecuteOptions`:
`string | stream.Stream | number | null | undefined`. -/
inductive StdioOpt where
  | undef
  | null
  | str (s : String)
  | fd (n : Nat)
  | stream
deriving DecidableEq

/-- JS truthiness of a stdio option value: `undefined`, `null`, `0` and
`""` are falsy; stream objects are always truthy. -/
def StdioOpt.truthy : StdioOpt → Bool
  | StdioOpt.undef => false
  | StdioOpt.null => false
  | StdioOpt.str s => s != ""
  | StdioOpt.fd n => n != 0
  | StdioOpt.stream => true

/-- The caller's `ExecuteOptions` object (stdio fields plus the
`SpawnOptions` fields forwarded to `spawn` by the spread). -/
structure ExecuteOptions where
  stdin : StdinOpt := StdinOpt.undef
  stdout : StdioOpt := StdioOpt.undef
  stderr : StdioOpt := StdioOpt.undef
  checkExitCode : Option Bool := none
  checkSignalCode : Option Bool := none
  encoding : EncodingOpt := EncodingOpt.absent
  trimOutput : Option Bool := none
deriving DecidableEq

/-- `stdio[0]` in `execute` (index.ts line 252):
`(options && options.stdin !== undefined && options.stdin !== null) ?
"pipe" : "ignore"`. -/
def deriveStdinCfg (options : Option ExecuteOptions) : StdioOpt :=
  match options with
  | none => StdioOpt.str "ignore"
  | some o =>
    match o.stdin with
    | StdinOpt.source => StdioOpt.str "pipe"
    | _ => StdioOpt.str "ignore"

/-- `stdio[1]` in `execute` (index.ts line 253):
`(options && options.stdout) || "pipe"` — the caller's value passes
through exactly when it is truthy. -/
def deriveStdoutCfg (options : Option ExecuteOptions) : StdioOpt :=
  match options with
  | none => StdioOpt.str "pipe"
  | some o => if o.stdout.truthy then o.stdout else StdioOpt.str "pipe"

/-- `stdio[2]` in `execute` (index.ts line 254):
`(options && options.stderr) || "pipe"`. -/
def deriveStderrCfg (options : Option ExecuteOptions) : StdioOpt :=
  match options with
  | none => StdioOpt.str "pipe"
  | some o => if o.stderr.truthy then o.stderr else StdioOpt.str "pipe"

/-- The options object `execute` builds for `spawn` via
`{ stdio, ...options }` (index.ts line 256): always an object (so `spawn`
sees a truthy `options`), with the caller's `SpawnOptions` fields spread
in, or none of them when `execute` was called without options. -/
def executeSpawnArg (options : Option ExecuteOptions) : SpawnOptionsArg :=
  match options with
  | none => {}
  | some o =>
    { checkExitCode := o.checkExitCode
      checkSignalCode := o.checkSignalCode
      encoding := o.encoding
      trimOutput := o.trimOutput }

/-- The resolved options of the handle `execute` spawns: `spawn` always
receives `some` object from `execute`, even when the caller passed no
options at all. -/
def executeResolvedOptions (options : Option ExecuteOptions) : ChildProcessOptions :=
  resolveOptions (some (executeSpawnArg options))

/-! ## `makePipe` / `ChildProcessTransform` (index.ts lines 259-325) -/

/-- The constructor guards of `ChildProcessTransform` (index.ts lines
266-272), including the source's copy-pasted "stdout is not writable"
message for the stdin guard. -/
def makePipeCheck (cp : ChildProcess) : Except String Unit :=
  if cp.hasStdout = false then
    Except.error "stdout is not readable, cannot create transform stream"
  else if cp.hasStdin = false then
    Except.error "stdout is not writable, cannot create transform stream"
  else
    Except.ok ()

/-- `.catch(h)` on a settled promise: a rejection is converted into a
fulfillment carrying the handler's value; a fulfillment passes through. -/
def promiseCatch {ε α β : Type} (r : Except ε α) (h : ε → β) : Except ε (α ⊕ β) :=
  match r with
  | Except.ok a => Except.ok (Sum.inl a)
  | Except.error e => Except.ok (Sum.inr (h e))

/-- Observable effect of the bridge's stdout-`"end"` handler. -/
structure EndOfStreamEffect where
  escapedRejection : Option ChildProcessError
  pushedEOS : Bool
deriving DecidableEq

/-- The stdout-`"end"` handler (index.ts line 280):
`wait(cp).catch((e) => e).finally(() => this.push(null))` — the `catch`
converts a policy rejection into a plain value, and `finally` pushes the
end-of-stream marker either way; a rejection could escape this handler
only if the post-`catch` chain rejected. -/
def onStdoutEnd (r : Except ChildProcessError WaitResult) : EndOfStreamEffect :=
  match promiseCatch r (fun e => e) with
  | Except.ok _ => { escapedRejection := none, pushedEOS := true }
  | Except.error e => { escapedRejection := some e, pushedEOS := true }

/-- Tick at which the `"end"` handler pushes the end-of-stream marker:
the handler starts when stdout ends (`tEnd`) and first awaits `wait(cp)`,
which settles at `tWait` (immediately, if already settled). -/
def bridgeEOSPushTime (tEnd tWait : Nat) : Nat := max tEnd tWait

/-- The constructor's own wait chain (index.ts line 277):
`wait(cp).catch((err) => this.emit("error", err))` — the `"error"` event
emitted on the bridge, if any. -/
def constructorWaitEffect (r : Except ChildProcessError WaitResult) :
    Option ChildProcessError :=
  match r with
  | Except.ok _ => none
  | Except.error e => some e

/-! ## Spec-side definitions and invariants -/

/-- The wait-policy condition as the spec's wording states it:
`(exitCode != null AND checkExitCode) OR (signalCode != null AND
checkSignalCode)` — null-tests, not JS truthiness. Used to compare the
spec's wording with the source's `checkFails`. -/
def specCheckFails (opts : ChildProcessOptions)
    (exitCode : Option Int) (signalCode : Option String) : Bool :=
  (exitCode.isSome && opts.checkExitCode) || (signalCode.isSome && opts.checkSignalCode)

/-- The policy condition the source actually applies, spelled out:
the exit code is non-null and non-zero with the exit check on, or the
signal code is non-null and non-empty with the signal check on. -/
def truthyPolicyFails (opts : ChildProcessOptions)
    (exitCode : Option Int) (signalCode : Option String) : Prop :=
  ((∃ n, exitCode = some n ∧ n ≠ 0) ∧ opts.checkExitCode = true) ∨
  ((∃ s, signalCode = some s ∧ s ≠ "") ∧ opts.checkSignalCode = true)

/-- The stdout disposition as the claim's wording states it: piped unless
the caller overrides it with an explicit sink (a file descriptor, a
stream target, or a named disposition). Modelled from the spec's words,
to be compared with the source-derived `deriveStdoutCfg`. -/
def deriveStdoutClaim (options : Option ExecuteOptions) : StdioOpt :=
  match options with
  | none => StdioOpt.str "pipe"
  | some o =>
    match o.stdout with
    | StdioOpt.undef => StdioOpt.str "pipe"
    | StdioOpt.null => StdioOpt.str "pipe"
    | v => v

/-- The terminal event carries exactly one non-absent value: a normal
exit carries an exit code and no signal, a signalled death carries a
signal and no exit code. -/
def exactlyOneStatus (ev : ExitEvent) : Prop :=
  (ev.exitCode.isSome ∧ ev.signalCode = none) ∨
  (ev.exitCode = none ∧ ev.signalCode.isSome)

/-- The status invariant of a `ChildProcess`: both fields null while
alive; exactly one non-null once terminated. -/
def statusInvariant (cp : ChildProcess) : Prop :=
  (cp.isAlive = true → cp.exitCode = none ∧ cp.signalCode = none) ∧
  (cp.isAlive = false →
    (cp.exitCode.isSome ∧ cp.signalCode = none) ∨
    (cp.exitCode = none ∧ cp.signalCode.isSome))

/-- Handle states reachable in the model: a freshly spawned handle, and
the result of the single terminal event firing once on a live handle
with a well-formed status pair. -/
inductive Reachable : ChildProcess → Prop where
  | spawned (command : Command) (options : Option SpawnOptionsArg)
      (pid : Nat) (hasStdin hasStdout hasStderr : Bool) :
      Reachable (spawn command options pid hasStdin hasStdout hasStderr)
  | exited (cp : ChildProcess) (ev : ExitEvent) :
      Reachable cp → cp.isAlive = true → exactlyOneStatus ev →
      Reachable (onExit cp ev)

/-! ## Concrete handles used as test inputs -/

/-- A handle that terminated normally with exit code 0, default options. -/
def cpExitZero : ChildProcess :=
  onExit (spawn (Command.arr ["true"]) none 7 false true true)
    { exitCode := some 0, signalCode := none }

/-- A live handle for `spawn("false")` with default options. -/
def cpShellFalse : ChildProcess :=
  spawn (Command.str "false") none 42 true true true

/-- A live handle for `spawn("true")` with default options. -/
def cpShellTrue : ChildProcess :=
  spawn (Command.str "true") none 41 true true true

/-- A live handle with stdin and stdout piped, suitable for `makePipe`. -/
def cpPiped : ChildProcess :=
  spawn (Command.arr ["base64"]) none 9 true true true

/-- Terminal event of a normal exit with code 1. -/
def evExit1 : ExitEvent := { exitCode := some 1, signalCode := none }

/-- Terminal event of a normal exit with code 0. -/
def evExit0 : ExitEvent := { exitCode := some 0, signalCode := none }

/-! ## Theorems -/

/-- Helper: the source's truthiness-based policy condition, spelled out as
a proposition on the option values. -/
theorem checkFails_eq_true_iff (opts : ChildProcessOptions)
    (ec : Option Int) (sc : Option String) :
    checkFails opts ec sc = true ↔ truthyPolicyFails opts ec sc := by
  unfold checkFails truthyPolicyFails intTruthy strTruthy
  cases ec <;> cases sc <;>
    simp [bne_iff_ne, and_comm, Option.some.injEq]

/-- Claim C1 (counterexample): a process that terminated with
`exitCode = 0` under `checkExitCode = true` satisfies the claim's
null-test condition `(exitCode != null AND checkExitCode)`, yet the code
resolves `wait` with `{exitCode: 0, signalCode: null}` instead of
failing: the source tests JS truthiness (`exitCode &&`), not nullness. -/
theorem wait_policy_c1_counterexample :
    specCheckFails cpExitZero.options cpExitZero.exitCode cpExitZero.signalCode = true ∧
    waitFails cpExitZero = false ∧
    wait cpExitZero =
      WaitAction.immediate (Except.ok { exitCode := some 0, signalCode := none }) := by
  decide

/-- Claim C1 (amended): for every terminated process, `wait` fails with a
`ChildProcessError` policy error exactly when (exitCode is non-null and
non-zero AND checkExitCode) OR (signalCode is non-null and non-empty AND
checkSignalCode); otherwise it resolves with `{exitCode, signalCode}`. -/
theorem wait_policy_truthiness (cp : ChildProcess) (halive : cp.isAlive = false) :
    ((waitFails cp = true) ↔ truthyPolicyFails cp.options cp.exitCode cp.signalCode) ∧
    (¬ truthyPolicyFails cp.options cp.exitCode cp.signalCode →
      wait cp = WaitAction.immediate
        (Except.ok { exitCode := cp.exitCode, signalCode := cp.signalCode })) ∧
    (truthyPolicyFails cp.options cp.exitCode cp.signalCode →
      wait cp = WaitAction.immediate
        (Except.error (ChildProcessError.ofChildProcess cp))) := by
  have hiff := checkFails_eq_true_iff cp.options cp.exitCode cp.signalCode
  by_cases h : checkFails cp.options cp.exitCode cp.signalCode = true
  · refine ⟨?_, fun hn => absurd (hiff.mp h) hn, fun _ => ?_⟩
    · simp [waitFails, wait, halive, waitCb, h, hiff.mp h]
    · simp [wait, halive, waitCb, h]
  · have h' : checkFails cp.options cp.exitCode cp.signalCode = false :=
      Bool.eq_false_iff.mpr h
    refine ⟨?_, fun _ => ?_, fun ht => absurd (hiff.mpr ht) h⟩
    · simp [waitFails, wait, halive, waitCb, h']
      exact fun hp => h (hiff.mpr hp)
    · simp [wait, halive, waitCb, h']

/-- Witness for C1's amended theorem at the terminated handle of
`spawn("false")` after exit code 1: the policy check fails and `wait`
rejects with the `ChildProcessError` built from the handle. -/
theorem wait_policy_truthiness_witness :
    (onExit cpShellFalse evExit1).isAlive = false ∧
    (((waitFails (onExit cpShellFalse evExit1) = true) ↔
        truthyPolicyFails (onExit cpShellFalse evExit1).options
          (onExit cpShellFalse evExit1).exitCode (onExit cpShellFalse evExit1).signalCode) ∧
      (¬ truthyPolicyFails (onExit cpShellFalse evExit1).options
          (onExit cpShellFalse evExit1).exitCode (onExit cpShellFalse evExit1).signalCode →
        wait (onExit cpShellFalse evExit1) = WaitAction.immediate
          (Except.ok { exitCode := (onExit cpShellFalse evExit1).exitCode,
                       signalCode := (onExit cpShellFalse evExit1).signalCode })) ∧
      (truthyPolicyFails (onExit cpShellFalse evExit1).options
          (onExit cpShellFalse evExit1).exitCode (onExit cpShellFalse evExit1).signalCode →
        wait (onExit cpShellFalse evExit1) = WaitAction.immediate
          (Except.error (ChildProcessError.ofChildProcess (onExit cpShellFalse evExit1))))) :=
  ⟨rfl, wait_policy_truthiness (onExit cpShellFalse evExit1) rfl⟩

/-- Claim C2 (confirmed): for every handle whose `isAlive` is already
false when `wait` is called, `wait` settles immediately from the frozen
`exitCode`/`signalCode` fields and registers no observer. -/
theorem wait_immediate_when_dead (cp : ChildProcess) (h : cp.isAlive = false) :
    wait cp = WaitAction.immediate (waitCb cp cp.exitCode cp.signalCode) ∧
    wait cp ≠ WaitAction.registerObserver := by
  simp [wait, h]

/-- Witness for C2 at a handle that already exited with code 0. -/
theorem wait_immediate_when_dead_witness :
    cpExitZero.isAlive = false ∧
    (wait cpExitZero =
        WaitAction.immediate (waitCb cpExitZero cpExitZero.exitCode cpExitZero.signalCode) ∧
      wait cpExitZero ≠ WaitAction.registerObserver) :=
  ⟨rfl, wait_immediate_when_dead cpExitZero rfl⟩

/-- Claim C3 (confirmed): a `wait` call registered before the terminal
event and one made after it produce the same outcome (the observer is
invoked with the event's values, the late call with the frozen fields,
and those coincide); any number of late calls settle immediately with
that same outcome; and a `wait` call leaves the handle unchanged. -/
theorem wait_repeatable (cp : ChildProcess) (ev : ExitEvent) :
    waitEarlyOutcome cp ev = waitLateOutcome cp ev ∧
    wait (onExit cp ev) = WaitAction.immediate (waitEarlyOutcome cp ev) ∧
    (waitStep cp).2 = cp ∧ (waitStep (onExit cp ev)).2 = onExit cp ev := by
  refine ⟨rfl, ?_, rfl, rfl⟩
  simp [wait, onExit, waitEarlyOutcome, waitLateOutcome]

/-- Claim C4 (confirmed): every reachable handle state satisfies the
status invariant — both fields null while alive, exactly one non-null
once terminated (the terminal event carrying exactly one non-absent
value) — and `wait` calls do not change the state, so the invariant
holds regardless of how many times `wait` is called. -/
theorem reachable_statusInvariant (cp : ChildProcess) (h : Reachable cp) :
    statusInvariant cp ∧ (waitStep cp).2 = cp := by
  refine ⟨?_, rfl⟩
  induction h with
  | spawned command options pid hsi hso hse =>
    exact ⟨fun _ => ⟨rfl, rfl⟩, fun hfalse => by simp [spawn] at hfalse⟩
  | exited cp ev hr halive hone ih =>
    refine ⟨fun htrue => by simp [onExit] at htrue, fun _ => ?_⟩
    simpa [onExit] using hone

/-- Witness for C4 at a freshly spawned handle. -/
theorem reachable_statusInvariant_witness :
    Reachable cpShellTrue ∧
    (statusInvariant cpShellTrue ∧ (waitStep cpShellTrue).2 = cpShellTrue) :=
  ⟨Reachable.spawned (Command.str "true") none 41 true true true,
   reachable_statusInvariant cpShellTrue
     (Reachable.spawned (Command.str "true") none 41 true true true)⟩

/-- Claim C5 (counterexample): with the status task rejecting at tick 0
and both drains settling at tick 5, `Promise.all` rejects at tick 0 —
the policy failure is reported before the drains have completed, so the
failure path is fail-fast, not a join. -/
theorem communicate_failfast_counterexample :
    (communicateSettle cpShellFalse evExit1 0 0 5 5).isRejected = true ∧
    (communicateSettle cpShellFalse evExit1 0 0 5 5).settleTime = 0 ∧
    (communicateSettle cpShellFalse evExit1 0 0 5 5).settleTime < 5 := by
  decide

/-- Claim C5 (amended): in the success path the aggregate is produced
only after stdin delivery, both drains, and status resolution have all
completed (a join); in the failure path `Promise.all` rejects with the
policy error as soon as the status task fails — at the status task's
settle tick — without waiting for the drains. -/
theorem communicate_join_and_failfast (cp : ChildProcess) (ev : ExitEvent)
    (tStdin tWait tOut tErr : Nat) :
    (∀ r, waitEarlyOutcome cp ev = Except.ok r →
      ∃ t, communicateSettle cp ev tStdin tWait tOut tErr = POutcome.fulfilled t ∧
        tStdin ≤ t ∧ tWait ≤ t ∧ tOut ≤ t ∧ tErr ≤ t) ∧
    (∀ e, waitEarlyOutcome cp ev = Except.error e →
      communicateSettle cp ev tStdin tWait tOut tErr = POutcome.rejected tWait e) := by
  constructor
  · intro r hok
    refine ⟨max tStdin (max tWait (max tOut (max tErr 0))), ?_, ?_, ?_, ?_, ?_⟩
    · simp [communicateSettle, promiseAllSettle, earliestRejection, waitTaskOf, hok,
        maxSettleTime]
    all_goals omega
  · intro e herr
    simp [communicateSettle, promiseAllSettle, earliestRejection, waitTaskOf, herr]

/-- Witness for C5's amended theorem: success branch for `spawn("true")`
exiting 0 with the four tasks settling at ticks 1, 2, 3, 4. -/
theorem communicate_join_and_failfast_witness :
    waitEarlyOutcome cpShellTrue evExit0 =
      Except.ok { exitCode := some 0, signalCode := none } ∧
    (∃ t, communicateSettle cpShellTrue evExit0 1 2 3 4 = POutcome.fulfilled t ∧
      1 ≤ t ∧ 2 ≤ t ∧ 3 ≤ t ∧ 4 ≤ t) :=
  ⟨by decide,
   (communicate_join_and_failfast cpShellTrue evExit0 1 2 3 4).1
     { exitCode := some 0, signalCode := none } (by decide)⟩

/-- Claim C6 (confirmed): the stdin side of `communicate` closes the
child's stdin immediately (and pipes nothing) when no source is given
and the handle has a stdin stream; writes the source's chunks in order
and then closes when a source is given; and touches nothing when the
handle has no stdin stream. -/
theorem communicate_stdin_task (src : List (List Nat)) :
    stdinTaskEvents none true = [StdinEvent.close] ∧
    stdinTaskEvents (some src) true = src.map StdinEvent.write ++ [StdinEvent.close] ∧
    (∀ a : Option (List (List Nat)), stdinTaskEvents a false = []) := by
  refine ⟨rfl, rfl, ?_⟩
  intro a
  cases a <;> rfl

/-- Claim C7 (counterexample): a caller overriding stdout with the
explicit sink "file descriptor 0" should, by the claim's wording, get
that sink; the source computes `(options && options.stdout) || "pipe"`,
and the falsy number 0 falls back to `"pipe"`. -/
theorem execute_stdio_c7_counterexample :
    deriveStdoutCfg (some { stdout := StdioOpt.fd 0 }) = StdioOpt.str "pipe" ∧
    deriveStdoutClaim (some { stdout := StdioOpt.fd 0 }) = StdioOpt.fd 0 ∧
    deriveStdoutCfg (some { stdout := StdioOpt.fd 0 }) ≠
      deriveStdoutClaim (some { stdout := StdioOpt.fd 0 }) := by
  decide

/-- Claim C7 (amended): `execute` pipes the child's stdin exactly when
`options.stdin` is present and non-null and ignores it otherwise;
stdout/stderr are piped unless the caller overrides them with a truthy
sink value — a falsy override (file descriptor 0, an empty string name,
or null) falls back to piped. -/
theorem execute_stdio_derivation (o : ExecuteOptions) :
    deriveStdinCfg (some o) =
      (if o.stdin = StdinOpt.source then StdioOpt.str "pipe" else StdioOpt.str "ignore") ∧
    deriveStdoutCfg (some o) =
      (if o.stdout.truthy then o.stdout else StdioOpt.str "pipe") ∧
    deriveStderrCfg (some o) =
      (if o.stderr.truthy then o.stderr else StdioOpt.str "pipe") ∧
    deriveStdinCfg none = StdioOpt.str "ignore" ∧
    deriveStdoutCfg none = StdioOpt.str "pipe" ∧
    deriveStderrCfg none = StdioOpt.str "pipe" := by
  refine ⟨?_, rfl, rfl, rfl, rfl, rfl⟩
  cases hs : o.stdin <;> simp [deriveStdinCfg, hs]

/-- Claim C8 (confirmed): for every bridge `makePipe` could construct
(both stdio slots piped), the stdout end-of-stream handler never lets a
policy rejection escape, always pushes the end-of-stream marker, and
pushes it no earlier than the tick at which the process's terminal
status settles. -/
theorem bridge_eos_swallows (cp : ChildProcess)
    (r : Except ChildProcessError WaitResult) (tEnd tWait : Nat)
    (_hbridge : makePipeCheck cp = Except.ok ()) :
    (onStdoutEnd r).escapedRejection = none ∧
    (onStdoutEnd r).pushedEOS = true ∧
    tWait ≤ bridgeEOSPushTime tEnd tWait := by
  refine ⟨?_, ?_, le_max_right _ _⟩ <;> cases r <;> rfl

/-- Witness for C8 at a piped handle with a failing wait outcome and
stdout ending at tick 3 while the status settles at tick 7. -/
theorem bridge_eos_swallows_witness :
    makePipeCheck cpPiped = Except.ok () ∧
    ((onStdoutEnd (Except.error (ChildProcessError.ofChildProcess cpPiped))).escapedRejection
        = none ∧
      (onStdoutEnd (Except.error (ChildProcessError.ofChildProcess cpPiped))).pushedEOS
        = true ∧
      7 ≤ bridgeEOSPushTime 3 7) :=
  ⟨rfl,
   bridge_eos_swallows cpPiped
     (Except.error (ChildProcessError.ofChildProcess cpPiped)) 3 7 rfl⟩

/-- Claim C9 (confirmed): `spawn(command)` with no options argument
resolves `trimOutput` to false, while any options object whose encoding
is not explicitly null (and that does not set `trimOutput`) resolves it
to true; `execute` always hands `spawn` an options object (the
`{ stdio, ...options }` literal), so `execute(command)` trims string
output by default while `spawn(command)` followed by `communicate` does
not. -/
theorem trim_default_depends_on_options (o : SpawnOptionsArg) (s : String)
    (henc : o.encoding ≠ EncodingOpt.null) (htrim : o.trimOutput = none) :
    (resolveOptions none).trimOutput = false ∧
    (resolveOptions (some o)).trimOutput = true ∧
    (executeResolvedOptions none).trimOutput = true ∧
    maybeTrim (OutputVal.stringOut s) (spawn (Command.str "echo Hello") none 1 false true true)
      = OutputVal.stringOut s ∧
    maybeTrim (OutputVal.stringOut s)
        { spawn (Command.str "echo Hello") none 1 false true true with
          options := executeResolvedOptions none }
      = OutputVal.stringOut s.trim := by
  refine ⟨rfl, ?_, rfl, rfl, rfl⟩
  simp [resolveOptions, htrim, bne_iff_ne, henc]

/-- Witness for C9 at the empty options object and the untrimmed output
of `echo Hello`. -/
theorem trim_default_depends_on_options_witness :
    ({} : SpawnOptionsArg).encoding ≠ EncodingOpt.null ∧
    ({} : SpawnOptionsArg).trimOutput = none ∧
    ((resolveOptions none).trimOutput = false ∧
      (resolveOptions (some ({} : SpawnOptionsArg))).trimOutput = true ∧
      (executeResolvedOptions none).trimOutput = true ∧
      maybeTrim (OutputVal.stringOut "Hello\n")
          (spawn (Command.str "echo Hello") none 1 false true true)
        = OutputVal.stringOut "Hello\n" ∧
      maybeTrim (OutputVal.stringOut "Hello\n")
          { spawn (Command.str "echo Hello") none 1 false true true with
            options := executeResolvedOptions none }
        = OutputVal.stringOut ("Hello\n".trim)) :=
  ⟨by decide, rfl, trim_default_depends_on_options {} "Hello\n" (by decide) rfl⟩

/-- Claim C10 (confirmed): the wait started at bridge construction
re-emits a policy failure as an `"error"` event on the bridge: for every
process whose termination status fails the configured policy, the
constructor's handler emits the error, even though the end-of-stream
handler swallows the same failure. -/
theorem bridge_error_event_on_policy_failure (cp : ChildProcess) (ev : ExitEvent)
    (_hbridge : makePipeCheck cp = Except.ok ())
    (hfail : checkFails cp.options ev.exitCode ev.signalCode = true) :
    ∃ e, waitEarlyOutcome cp ev = Except.error e ∧
      constructorWaitEffect (waitEarlyOutcome cp ev) = some e ∧
      (onStdoutEnd (waitEarlyOutcome cp ev)).escapedRejection = none := by
  have hopts : (onExit cp ev).options = cp.options := rfl
  have herr : waitEarlyOutcome cp ev =
      Except.error (ChildProcessError.ofChildProcess (onExit cp ev)) := by
    simp [waitEarlyOutcome, waitCb, hopts, hfail]
  exact ⟨ChildProcessError.ofChildProcess (onExit cp ev), herr,
    by rw [herr]; rfl, by rw [herr]; rfl⟩

/-- Witness for C10 at the piped handle terminating with exit code 1
under the default policy. -/
theorem bridge_error_event_on_policy_failure_witness :
    makePipeCheck cpPiped = Except.ok () ∧
    checkFails cpPiped.options evExit1.exitCode evExit1.signalCode = true ∧
    (∃ e, waitEarlyOutcome cpPiped evExit1 = Except.error e ∧
      constructorWaitEffect (waitEarlyOutcome cpPiped evExit1) = some e ∧
      (onStdoutEnd (waitEarlyOutcome cpPiped evExit1)).escapedRejection = none) :=
  ⟨rfl, by decide, bridge_error_event_on_policy_failure cpPiped evExit1 rfl (by decide)⟩

end Spawn2
